import Mathlib

/-!
Verification of the `openai-fetch` client library against its specification.

The development shallowly embeds the TypeScript sources:
  * `fetch-api.cjs` (`createApiInstance`, the adapter's `post`/`extend`,
    `parseHeaders`, `safeJson`, `numberBetween`, the default retry delay);
  * `openai-client.ts` (the `OpenAIClient` facade: `getApi`, the request
    bodies of the streaming endpoints, `createTranscription`);
  * the stream chunk decoder (`StreamCompletionChunker`), whose source file
    is not among the provided sources and is therefore modelled from the
    specification's description of the decoder.

JavaScript objects used as string maps are embedded as association lists in
insertion order; a lookup returns the value of the LAST binding of a key, so
that list append models object spread (`{...a, ...b}`, `b` winning).
Mutable objects shared by reference (the caller-supplied `hooks` object) are
embedded by explicit state passing: functions that mutate the shared hooks
cell take its current contents and return the new contents.
-/

/-- A JSON value (arrays are not needed by any claim and are omitted;
`obj` keeps fields in insertion order). -/
inductive Json where
  | null : Json
  | bool : Bool → Json
  | num : Int → Json
  | str : String → Json
  | obj : List (String × Json) → Json

/-- JavaScript property lookup on an object literal built by spread:
the last binding of a key wins. -/
def jsGetFields (fields : List (String × Json)) (k : String) : Option Json :=
  fields.foldl (fun acc p => if p.1 = k then some p.2 else acc) none

/-- `j.k` / `j?.k` on a JSON value: property access on anything that is not
an object yields `undefined` (`none`). -/
def Json.getField (j : Json) (k : String) : Option Json :=
  match j with
  | .obj fields => jsGetFields fields k
  | _ => none

/-- JavaScript truthiness of a JSON value. -/
def Json.truthy : Json → Bool
  | .null => false
  | .bool b => b
  | .num n => n != 0
  | .str s => s != ""
  | .obj _ => true

/-- Whether a JSON value is an object (the `\x7b...\x7d` shape). -/
def Json.isObj : Json → Bool
  | .obj _ => true
  | _ => false

/-- String-to-string maps (HTTP headers, `kyOptions.headers`):
association lists in insertion order, last binding wins. -/
def jsLookup (o : List (String × String)) (k : String) : Option String :=
  o.foldl (fun acc p => if p.1 = k then some p.2 else acc) none

/-! ## `fetch-api.cjs`: retry backoff -/

/-- `numberBetween(min, max)` from `fetch-api.cjs`; the argument `r` stands
for the value of `Math.random()`, a number in `[0, 1)`.  Arithmetic is
embedded exactly, over the rationals. -/
def numberBetween (min max r : ℚ) : ℚ :=
  r * (max - min) + min

/-- The default `retry.delay` function installed by `createApiInstance`:
`INITIAL_DELAY = 0.3`, `jitter = numberBetween(-0.3, 0.3)`,
`sleep = INITIAL_DELAY * (attemptCount - 1)^2`, result `(sleep + jitter) * 1000`
milliseconds.  `r` is the `Math.random()` draw used by the jitter. -/
def retryDelay (attemptCount : ℕ) (r : ℚ) : ℚ :=
  let jitter := numberBetween (-(3/10)) (3/10) r
  let sleep := (3/10) * (((attemptCount : ℚ)) - 1) ^ 2
  (sleep + jitter) * 1000

/-! ## `fetch-api.cjs`: error normalization -/

/-- The value of `response.headers` as seen by `parseHeaders`:
either absent/null, an iterable of header entries, a plain record, or an
object whose iteration throws (`bad`). -/
inductive HeadersVal where
  | absent : HeadersVal
  | iter : List (String × String) → HeadersVal
  | record : List (String × String) → HeadersVal
  | bad : HeadersVal
deriving Repr, DecidableEq

/-- `parseHeaders` from `fetch-api.cjs`: `!headers` yields the empty map; an
iterable is materialised entry by entry; otherwise the record is spread; and
the surrounding `try/catch` turns any exception raised while iterating
(`bad`) into the empty map. -/
def parseHeaders : HeadersVal → List (String × String)
  | .absent => []
  | .iter entries => entries
  | .record fields => fields
  | .bad => []

/-- `safeJson` from `fetch-api.cjs`.  `parse` stands for the JavaScript
builtin `JSON.parse`, with a throw embedded as `none`; the `try/catch` in
`safeJson` therefore returns `undefined` (`none`) exactly when parsing
throws. -/
def safeJson (parse : String → Option Json) (text : String) : Option Json :=
  parse text

/-- The outcome of `response.clone().text()`: either the body text, or a
rejection whose `castToError(e).message` is the given string (the `.catch`
in the hook substitutes that message for the text). -/
inductive BodyRead where
  | ok : String → BodyRead
  | failed : String → BodyRead
deriving Repr, DecidableEq

/-- A failed HTTP response as consumed by the `beforeError` hook:
status, the raw `headers` value, and the body (`none` when `response.body`
is null). -/
structure FailedResponse where
  status : Nat
  headers : HeadersVal
  body : Option BodyRead

/-- The structured error produced by normalization, mirroring the
`APIError` constructor's four arguments `(status, errorResponse, message,
headers)`.  `APIError` itself lives in `errors.js`, which is not among the
provided sources; per the specification the error value simply carries
these four components. -/
structure APIError where
  status : Option Nat
  errorResponse : Option Json
  message : Option String
  headers : List (String × String)

/-- Modelled from the spec: `APIError.generate` (defined in the missing
`errors.js`) produces a generic error carrying the underlying cause's
message, with no status, parsed body or headers. -/
def APIError.generate (causeMessage : String) : APIError :=
  { status := none, errorResponse := none, message := some causeMessage,
    headers := [] }

/-- The `beforeError` hook pushed by `createApiInstance`.  `parse` models
`JSON.parse`; the second argument is the transport error's message, used
only when no response exists.  With a response: read status, parse headers;
if a body is present, read its text (a read failure degrades to the cause's
message), extract `safeJson(errText)?.error`, and keep the raw text as the
message exactly when that extraction is not truthy. -/
def beforeErrorHook (parse : String → Option Json) :
    Option FailedResponse → String → APIError
  | some response, _ =>
    let hdrs := parseHeaders response.headers
    match response.body with
    | none =>
      { status := some response.status, errorResponse := none,
        message := none, headers := hdrs }
    | some bodyRead =>
      let errText := match bodyRead with
        | .ok t => t
        | .failed m => m
      let errorResponse := (safeJson parse errText).bind
        (fun j => j.getField "error")
      let message := match errorResponse with
        | some e => if e.truthy then none else some errText
        | none => some errText
      { status := some response.status, errorResponse := errorResponse,
        message := message, headers := hdrs }
  | none, causeMessage => APIError.generate causeMessage

/-! ## `fetch-api.cjs`: the transport adapter, `createApiInstance` and `extend`

The caller-supplied `kyOptions.hooks` object is mutated in place by
`createApiInstance` (`if (!hooks.beforeError) hooks.beforeError = []` then
`hooks.beforeError.push(normalizer)`), and `extend` re-invokes
`createApiInstance` with `{...kyOptions, headers: merged}`, which copies the
reference to that same `hooks` object.  The shared object is embedded as an
explicit cell of type `Option (List Handler)`: `some l` when the client's
`kyOptions` carries a `hooks` object whose `beforeError` list currently
holds `l` (an absent `beforeError` field behaves as `[]`), `none` when
`kyOptions` has no `hooks` key, in which case each `createApiInstance`
invocation destructures a fresh local `\x7b\x7d` and no sharing occurs.
`ky.extend` snapshots the hook arrays when the instance is created, so each
adapter records the `beforeError` contents at its creation time. -/

/-- A `beforeError` handler: the error normalizer pushed by
`createApiInstance`, or a caller-registered handler (tagged by a number). -/
inductive Handler where
  | normalizer : Handler
  | user : Nat → Handler
deriving Repr, DecidableEq

/-- `DEFAULT_BASE_URL` from `fetch-api.cjs`. -/
def DEFAULT_BASE_URL : String := "https://api.openai.com/v1"

/-- The state of one transport adapter produced by `createApiInstance`:
the configuration captured by its closures (`apiKey`, effective base URL,
organization id, `kyOptions.headers`) together with the `beforeError` hook
list snapshotted into its `ky` instance, and whether its `kyOptions`
aliases the caller-supplied shared hooks object. -/
structure Adapter where
  apiKey : String
  baseUrl : String
  organizationId : Option String
  kyHeaders : List (String × String)
  kyBeforeError : List Handler
  sharesHooks : Bool
deriving Repr, DecidableEq

/-- `createApiInstance` from `fetch-api.cjs`, restricted to the fields the
claims are about.  `baseUrl` is the `baseUrl || prefixUrl` value (`none`
falls through to `DEFAULT_BASE_URL`).  `hooksCell` is the current contents
of the caller-supplied `hooks.beforeError` (`none` when `kyOptions` has no
`hooks` key).  The function pushes the error normalizer onto that list and
returns the adapter together with the cell's new contents. -/
def createApiInstance (apiKey : String) (baseUrl : Option String)
    (organizationId : Option String) (kyHeaders : List (String × String))
    (hooksCell : Option (List Handler)) :
    Adapter × Option (List Handler) :=
  let newBeforeError := hooksCell.getD [] ++ [Handler.normalizer]
  ({ apiKey := apiKey
     baseUrl := baseUrl.getD DEFAULT_BASE_URL
     organizationId := organizationId
     kyHeaders := kyHeaders
     kyBeforeError := newBeforeError
     sharesHooks := hooksCell.isSome },
   hooksCell.map fun _ => newBeforeError)

/-- The overrides accepted by the adapter's `extend`
(`\x7b headers?, signal? \x7d`). -/
structure ExtendOverrides where
  headers : List (String × String)
  signal : Option Nat
deriving Repr, DecidableEq

/-- `extend` from `fetch-api.cjs`: merges `\x7b...headers,
...overrides.headers\x7d` (overrides win on collision, by last-binding
lookup on the appended list) and re-invokes `createApiInstance` with
`\x7b...kyOptions, headers: merged\x7d` — which passes along the reference
to the shared `hooks` object whenever the original `kyOptions` had one.
As in the source, `overrides.signal` is read by no one. -/
def Adapter.extend (a : Adapter) (cell : Option (List Handler))
    (overrides : ExtendOverrides) : Adapter × Option (List Handler) :=
  let mergedHeaders := a.kyHeaders ++ overrides.headers
  createApiInstance a.apiKey (some a.baseUrl) a.organizationId mergedHeaders
    (if a.sharesHooks then cell else none)

/-- Each registered `beforeError` hook is invoked once per failed HTTP
response by the underlying `ky` client, so the number of times the error
normalizer runs for one failed response equals the number of `normalizer`
entries in the adapter's snapshotted hook list. -/
def normalizationRuns (a : Adapter) : Nat :=
  a.kyBeforeError.count Handler.normalizer

/-! ## The adapter's `post` and the `OpenAIClient` facade -/

/-- A multipart form value: a `Blob` built from bytes with a MIME type, a
value appended as-is by the fallback branch (tagged by its source value),
or a plain string field. -/
inductive FormValue where
  | blobOf : List Nat → String → FormValue
  | asIs : String → FormValue
  | strVal : String → FormValue
deriving Repr, DecidableEq

/-- One `form.append(field, value, filename?)` entry. -/
structure FormEntry where
  field : String
  value : FormValue
  filename : Option String
deriving Repr, DecidableEq

/-- The outbound HTTP request built by the adapter's `post`. -/
structure Request where
  url : String
  json : Option Json
  form : Option (List FormEntry)
  headers : List (String × String)
  signal : Option Nat

/-- The options object the facade passes to the adapter's `post`. -/
structure PostOpts where
  json : Option Json
  body : Option (List FormEntry)
  headers : List (String × String)
  signal : Option Nat

/-- `path.replace(/^\//, '')` from the adapter's `post`. -/
def stripLeadingSlash (p : String) : String :=
  if p.startsWith "/" then p.drop 1 else p

/-- The adapter's `post`: issues the request to the prefixed URL with the
`json`/`body`/`headers`/`signal` taken from its options object. -/
def Adapter.post (a : Adapter) (path : String) (opts : PostOpts) : Request :=
  { url := a.baseUrl ++ "/" ++ stripLeadingSlash path
    json := opts.json
    form := opts.body
    headers := opts.headers
    signal := opts.signal }

/-- The per-request overrides accepted by every facade method
(`RequestOpts` in `openai-client.ts`): header overrides and an abort
signal (embedded as a numeric token). -/
structure RequestOpts where
  headers : List (String × String)
  signal : Option Nat
deriving Repr, DecidableEq

/-- `getApi` from `openai-client.ts`: `opts ? this.api.extend(opts) :
this.api`.  `cell` is the current contents of the shared hooks object. -/
def getApi (api : Adapter) (cell : Option (List Handler)) :
    Option RequestOpts → Adapter
  | none => api
  | some o => (api.extend cell { headers := o.headers, signal := o.signal }).1

/-- The body of `createChatCompletion`'s request: `\x7b json: params \x7d`
— the `post` options carry no `headers` and no `signal` key. -/
def createChatCompletionRequest (api : Adapter) (cell : Option (List Handler))
    (params : List (String × Json)) (opts : Option RequestOpts) : Request :=
  (getApi api cell opts).post "chat/completions"
    { json := some (Json.obj params), body := none, headers := [],
      signal := none }

/-- The JSON body sent by `streamChatCompletion`:
`\x7b ...params, stream: true \x7d`. -/
def streamChatCompletionBody (params : List (String × Json)) :
    List (String × Json) :=
  params ++ [("stream", Json.bool true)]

/-- The JSON body sent by `streamCompletion`:
`\x7b ...params, stream: true \x7d`. -/
def streamCompletionBody (params : List (String × Json)) :
    List (String × Json) :=
  params ++ [("stream", Json.bool true)]

/-- The request issued by `streamChatCompletion`. -/
def streamChatCompletionRequest (api : Adapter) (cell : Option (List Handler))
    (params : List (String × Json)) (opts : Option RequestOpts) : Request :=
  (getApi api cell opts).post "chat/completions"
    { json := some (Json.obj (streamChatCompletionBody params)), body := none,
      headers := [], signal := none }

/-- The request issued by `streamCompletion`. -/
def streamCompletionRequest (api : Adapter) (cell : Option (List Handler))
    (params : List (String × Json)) (opts : Option RequestOpts) : Request :=
  (getApi api cell opts).post "completions"
    { json := some (Json.obj (streamCompletionBody params)), body := none,
      headers := [], signal := none }

/-! ## `createTranscription`: multipart form building -/

/-- The `file` argument of a transcription call, by the shape tests the
source performs: a `Blob`/`File` (with an optional `name` and a MIME
`type`), an `ArrayBuffer` or typed-array view, a plain object carrying a
truthy `data` field (with optional `name`/`type`), or any other value
(matched by no branch and appended as-is; the tag records which value). -/
inductive FileRep where
  | blob : Option String → Option String → List Nat → FileRep
  | arrayBufferLike : List Nat → FileRep
  | withData : List Nat → Option String → Option String → FileRep
  | other : String → FileRep
deriving Repr, DecidableEq

/-- The `file`-field entry appended by `createTranscription`, following the
source's branch order: a non-`Blob` with a truthy `data` field becomes a
fresh `Blob` (type defaulting to `application/octet-stream`, filename
defaulting to `audio`); a `Blob`/`File` is appended as-is with
`file.name || 'audio'` as the filename; an `ArrayBuffer`/view is wrapped in
an `application/octet-stream` `Blob` named `audio`; anything else is
appended as-is (the fallback branch). -/
def appendFileEntry : FileRep → FormEntry
  | .withData bytes name mime =>
    { field := "file"
      value := FormValue.blobOf bytes (mime.getD "application/octet-stream")
      filename := some (name.getD "audio") }
  | .blob name mime bytes =>
    { field := "file"
      value := FormValue.blobOf bytes (mime.getD "")
      filename := some (name.getD "audio") }
  | .arrayBufferLike bytes =>
    { field := "file"
      value := FormValue.blobOf bytes "application/octet-stream"
      filename := some "audio" }
  | .other tag =>
    { field := "file", value := FormValue.asIs tag, filename := none }

/-- The parameters of a transcription call, restricted to the fields the
source reads.  `file := none` embeds a params object whose `file` field is
absent or falsy.  `chunking_strategy` is embedded in its string form (an
object would be `JSON.stringify`-ed to a string before appending).
`includeFields` embeds the `include` array (`include` is a Lean keyword). -/
structure TranscriptionParams where
  file : Option FileRep
  model : String
  language : Option String
  prompt : Option String
  response_format : Option String
  temperature : Option Int
  timestamp_granularities : List String
  includeFields : List String
  stream : Option Bool
  chunking_strategy : Option String
deriving Repr, DecidableEq

/-- One optional string field appended as `form.append(name, value)` when
present. -/
def optEntry (name : String) : Option String → List FormEntry
  | some v => [{ field := name, value := FormValue.strVal v, filename := none }]
  | none => []

/-- The multipart form constructed by `createTranscription`, or the
validation error thrown before any request when `file` is missing
(`if (!file) throw new Error('Transcription requires a file')`). -/
def buildTranscriptionForm (p : TranscriptionParams) :
    Except String (List FormEntry) :=
  match p.file with
  | none => Except.error "Transcription requires a file"
  | some f =>
    Except.ok
      ([appendFileEntry f,
        { field := "model", value := FormValue.strVal p.model,
          filename := none }]
        ++ optEntry "language" p.language
        ++ optEntry "prompt" p.prompt
        ++ optEntry "response_format" p.response_format
        ++ (match p.temperature with
            | some t =>
              [{ field := "temperature", value := FormValue.strVal (toString t),
                 filename := none }]
            | none => [])
        ++ p.timestamp_granularities.map
            (fun g => { field := "timestamp_granularities[]",
                        value := FormValue.strVal g, filename := none })
        ++ p.includeFields.map
            (fun inc => { field := "include[]",
                          value := FormValue.strVal inc, filename := none })
        ++ (match p.stream with
            | some b =>
              [{ field := "stream",
                 value := FormValue.strVal (if b then "true" else "false"),
                 filename := none }]
            | none => [])
        ++ optEntry "chunking_strategy" p.chunking_strategy)

/-- `createTranscription` up to the point where the response is consumed:
the form is built first (so a missing file throws before the transport is
touched), then the request is posted to `audio/transcriptions` with the
form as body and an empty header override. -/
def createTranscription (api : Adapter) (cell : Option (List Handler))
    (p : TranscriptionParams) (opts : Option RequestOpts) :
    Except String Request :=
  match buildTranscriptionForm p with
  | Except.error e => Except.error e
  | Except.ok form =>
    Except.ok ((getApi api cell opts).post "audio/transcriptions"
      { json := none, body := some form, headers := [], signal := none })

/-- The transport invocations performed by one `createTranscription` call:
none when validation throws, exactly the posted request otherwise. -/
def transcriptionTransportCalls (api : Adapter) (cell : Option (List Handler))
    (p : TranscriptionParams) (opts : Option RequestOpts) : List Request :=
  match createTranscription api cell p opts with
  | Except.error _ => []
  | Except.ok r => [r]

/-! ## The stream chunk decoder

Modelled from the spec: the `StreamCompletionChunker` transform
(`streaming.js` is not among the provided sources).  Per the
specification's component design, the decoder buffers partial frames
across chunk boundaries, splits the byte stream on the `\n\n` frame
delimiter, ignores non-`data:` lines, ends the sequence when a frame's
payload is the literal `[DONE]` sentinel or the stream closes, and treats
a non-JSON payload that is not the sentinel as a fatal decode error.  It
is embedded as a character-level state machine folded over the incoming
chunks; `parse` models `JSON.parse` (a throw is `none`) and `fn` is the
caller-supplied mapping applied to each parsed chunk before yielding. -/

/-- Decoder state: the buffered partial frame, whether the last consumed
character was a newline (half of a potential frame delimiter), the values
yielded so far, whether the `[DONE]` sentinel ended the sequence, and
whether a malformed frame aborted it. -/
structure DecoderState (β : Type) where
  buf : List Char
  pendingNewline : Bool
  output : List β
  done : Bool
  fatal : Bool

/-- The `data: ` tag that begins a data frame. -/
def dataTag : List Char := "data: ".data

/-- The literal `[DONE]` sentinel payload. -/
def doneToken : List Char := "[DONE]".data

/-- Handle one complete frame: empty frames and non-`data:` lines
(comments, `event:` lines) are ignored; a `data:` frame whose payload is
the sentinel terminates the sequence; otherwise the payload is parsed and
the mapped value yielded, a parse failure being fatal. -/
def handleFrame (parse : List Char → Option α) (fn : α → β)
    (st : DecoderState β) (frame : List Char) : DecoderState β :=
  if frame.isEmpty then st
  else if dataTag.isPrefixOf frame then
    let payload := frame.drop 6
    if payload = doneToken then { st with done := true }
    else
      match parse payload with
      | some v => { st with output := st.output ++ [fn v] }
      | none => { st with fatal := true }
  else st

/-- Consume one character.  After termination (sentinel seen or fatal
error) the rest of the input is ignored.  Two consecutive newlines close
the buffered frame; a lone newline is held back and re-joins the buffer if
the next character is not a newline. -/
def decodeStep (parse : List Char → Option α) (fn : α → β)
    (st : DecoderState β) (c : Char) : DecoderState β :=
  if st.done || st.fatal then st
  else if c = '\n' then
    if st.pendingNewline then
      handleFrame parse fn { st with buf := [], pendingNewline := false } st.buf
    else { st with pendingNewline := true }
  else if st.pendingNewline then
    { st with buf := st.buf ++ ['\n', c], pendingNewline := false }
  else { st with buf := st.buf ++ [c] }

/-- The initial decoder state. -/
def decodeInit : DecoderState β :=
  { buf := [], pendingNewline := false, output := [], done := false,
    fatal := false }

/-- Feed one chunk of characters into the decoder. -/
def decodeFeed (parse : List Char → Option α) (fn : α → β)
    (st : DecoderState β) (chunk : List Char) : DecoderState β :=
  chunk.foldl (decodeStep parse fn) st

/-- Run the decoder over a whole (finite) sequence of incoming chunks; the
end of the chunk list is the closing of the underlying byte stream. -/
def StreamCompletionChunker (parse : List Char → Option α) (fn : α → β)
    (chunks : List (List Char)) : DecoderState β :=
  chunks.foldl (decodeFeed parse fn) decodeInit

/-- The concrete frame sequence of the streaming claim:
`data: \x7b"id":1\x7d\n\ndata: \x7b"id":2\x7d\n\ndata: [DONE]\n\n`. -/
def sseContent : List Char :=
  ("data: \x7b\"id\":1\x7d\n\ndata: \x7b\"id\":2\x7d\n\ndata: [DONE]\n\n").data

/-- The same content with the stream closing before any `[DONE]` frame. -/
def sseContentNoDone : List Char :=
  ("data: \x7b\"id\":1\x7d\n\ndata: \x7b\"id\":2\x7d\n\n").data

/-- The payload of the first frame. -/
def ssePayload1 : List Char := ("\x7b\"id\":1\x7d").data

/-- The payload of the second frame. -/
def ssePayload2 : List Char := ("\x7b\"id\":2\x7d").data

/-! ## Helper lemmas for the stream chunk decoder -/

/-- Feeding a concatenation of two chunks equals feeding them in turn:
the decoder's buffering makes chunk boundaries invisible. -/
theorem decodeFeed_append (parse : List Char → Option α) (fn : α → β)
    (st : DecoderState β) (a b : List Char) :
    decodeFeed parse fn st (a ++ b)
      = decodeFeed parse fn (decodeFeed parse fn st a) b := by
  simp [decodeFeed, List.foldl_append]

/-- Running the decoder over any chunk list is running it over the
concatenated content: the split into chunks is irrelevant. -/
theorem chunker_eq_flatten (parse : List Char → Option α) (fn : α → β)
    (chunks : List (List Char)) :
    StreamCompletionChunker parse fn chunks
      = decodeFeed parse fn decodeInit chunks.flatten := by
  rw [StreamCompletionChunker]
  generalize (decodeInit : DecoderState β) = st
  induction chunks generalizing st with
  | nil => simp [decodeFeed]
  | cons h t ih =>
    simp [List.foldl_cons, List.flatten_cons, decodeFeed_append, ih]

/-- Newline-free text is accumulated verbatim into the frame buffer. -/
theorem decodeFeed_no_newline (parse : List Char → Option α) (fn : α → β)
    (s : List Char) (hs : '\n' ∉ s) (b : List Char) (out : List β) :
    decodeFeed parse fn
        { buf := b, pendingNewline := false, output := out, done := false,
          fatal := false } s
      = { buf := b ++ s, pendingNewline := false, output := out, done := false,
          fatal := false } := by
  induction s generalizing b with
  | nil => simp [decodeFeed]
  | cons c cs ih =>
    have hc : c ≠ '\n' := fun h => hs (h ▸ List.mem_cons_self c cs)
    have hcs : '\n' ∉ cs := fun h => hs (List.mem_cons_of_mem c h)
    simp [decodeFeed, List.foldl_cons, decodeStep, hc] at ih ⊢
    rw [ih hcs]
    simp

/-- The frame delimiter closes the buffered frame and hands it to
`handleFrame`. -/
theorem decodeFeed_close_frame (parse : List Char → Option α) (fn : α → β)
    (b : List Char) (out : List β) :
    decodeFeed parse fn
        { buf := b, pendingNewline := false, output := out, done := false,
          fatal := false } ['\n', '\n']
      = handleFrame parse fn
          { buf := [], pendingNewline := false, output := out, done := false,
            fatal := false } b := by
  simp [decodeFeed, decodeStep]

/-- Evaluation of `handleFrame` on a `data:` frame. -/
theorem handleFrame_data (parse : List Char → Option α) (fn : α → β)
    (payload : List Char) (out : List β) :
    handleFrame parse fn
        { buf := [], pendingNewline := false, output := out, done := false,
          fatal := false } (dataTag ++ payload)
      = (if payload = doneToken then
          { buf := [], pendingNewline := false, output := out, done := true,
            fatal := false }
         else
          match parse payload with
          | some v =>
            { buf := [], pendingNewline := false, output := out ++ [fn v],
              done := false, fatal := false }
          | none =>
            { buf := [], pendingNewline := false, output := out, done := false,
              fatal := true }) := by
  have h1 : (dataTag ++ payload).isEmpty = false := by
    simp [dataTag, List.isEmpty_eq_false_iff_exists_mem]
  have h2 : dataTag.isPrefixOf (dataTag ++ payload) = true := by
    simp [List.isPrefixOf_iff_prefix]
  have h3 : (dataTag ++ payload).drop 6 = payload := by
    rw [show (6 : Nat) = dataTag.length from by decide, List.drop_left]
  rw [handleFrame, h1, h2, h3]
  simp

/-- Feeding one whole `data: <payload>\n\n` frame from a clean state:
the sentinel terminates, a parsed payload is yielded mapped, and a parse
failure is fatal. -/
theorem decodeFeed_whole_frame (parse : List Char → Option α) (fn : α → β)
    (payload : List Char) (hnl : '\n' ∉ payload) (out : List β) :
    decodeFeed parse fn
        { buf := [], pendingNewline := false, output := out, done := false,
          fatal := false } (dataTag ++ payload ++ ['\n', '\n'])
      = (if payload = doneToken then
          { buf := [], pendingNewline := false, output := out, done := true,
            fatal := false }
         else
          match parse payload with
          | some v =>
            { buf := [], pendingNewline := false, output := out ++ [fn v],
              done := false, fatal := false }
          | none =>
            { buf := [], pendingNewline := false, output := out, done := false,
              fatal := true }) := by
  have hassoc : dataTag ++ payload ++ ['\n', '\n']
      = (dataTag ++ payload) ++ ['\n', '\n'] := by
    simp [List.append_assoc]
  have hnl' : '\n' ∉ dataTag ++ payload := by
    intro hmem
    rcases List.mem_append.mp hmem with h | h
    · revert h; decide
    · exact hnl h
  rw [hassoc, decodeFeed_append,
    decodeFeed_no_newline parse fn _ hnl' [] out]
  rw [List.nil_append, decodeFeed_close_frame, handleFrame_data]

/-- An object-shaped JSON value is truthy. -/
theorem truthy_of_isObj (e : Json) (h : e.isObj = true) : e.truthy = true := by
  cases e <;> simp_all [Json.isObj, Json.truthy]

/-! ## The claims -/

/-- C1: the claim says `extend` shares no mutable state with the original
adapter and leaves the original's configuration (including its hooks)
unchanged.  The code violates this: when the client configuration carries a
`hooks` object, `extend`'s `\x7b...kyOptions\x7d` spread passes the same
object to the inner `createApiInstance`, whose `hooks.beforeError.push`
mutates it — after one `extend`, the original configuration's shared
`beforeError` list has grown from one registered normalizer to two. -/
theorem c1_extend_mutates_shared_hooks :
    ((createApiInstance "sk-test" none none [] (some [])).2
        = some [Handler.normalizer])
  ∧ (((createApiInstance "sk-test" none none [] (some [])).1.extend
        (createApiInstance "sk-test" none none [] (some [])).2
        { headers := [("A", "x")], signal := none }).2
        = some [Handler.normalizer, Handler.normalizer]) := by decide

/-- C2: the claim says error normalization runs exactly once per failed
response.  The code violates this for derived adapters of a client whose
configuration carries a `hooks` object: the derived adapter's `ky`
instance snapshots a `beforeError` list holding two normalizer entries, so
a failed response through it is normalized twice (a client without a
caller-supplied hooks object registers exactly one, first conjunct). -/
theorem c2_derived_normalizes_twice :
    (normalizationRuns (createApiInstance "sk-test" none none [] none).1 = 1)
  ∧ (normalizationRuns
      ((createApiInstance "sk-test" none none [] (some [])).1.extend
        (createApiInstance "sk-test" none none [] (some [])).2
        { headers := [], signal := none }).1 = 2) := by decide

/-- C3: the claim says a per-call cancellation signal is attached to that
call's outbound request.  The code violates this: `extend` ignores
`overrides.signal` and the facade's `post` options carry no `signal`, so
the outbound request of a call made with a signal override carries no
signal at all. -/
theorem c3_signal_dropped :
    (createChatCompletionRequest
      (createApiInstance "sk-test" none none [] none).1 none
      [("model", Json.str "gpt-4o")]
      (some { headers := [], signal := some 7 })).signal = none := rfl

/-- C4 counterexample: a transcription call whose `file` is present but
matches none of the recognized representations does NOT throw before the
network request — the fallback branch appends the value as-is and the
transport is invoked once. -/
theorem c4_counterexample :
    ((createTranscription (createApiInstance "sk-test" none none [] none).1 none
        { file := some (FileRep.other "just-a-string"), model := "whisper-1",
          language := none, prompt := none, response_format := none,
          temperature := none, timestamp_granularities := [],
          includeFields := [], stream := none, chunking_strategy := none }
        none).toOption.isSome = true)
  ∧ ((transcriptionTransportCalls
        (createApiInstance "sk-test" none none [] none).1 none
        { file := some (FileRep.other "just-a-string"), model := "whisper-1",
          language := none, prompt := none, response_format := none,
          temperature := none, timestamp_granularities := [],
          includeFields := [], stream := none, chunking_strategy := none }
        none).length = 1) := ⟨rfl, rfl⟩

/-- C4 (amended): for every transcription call whose `file` is present but
matches none of the recognized file representations, `createTranscription`
does not throw: it appends the value to the multipart form as-is (as the
first form field) and the request is issued.  Only a missing `file` fails
fast. -/
theorem c4_amended_fallback (api : Adapter) (cell : Option (List Handler))
    (opts : Option RequestOpts) (p : TranscriptionParams) (tag : String)
    (h : p.file = some (FileRep.other tag)) :
    ∃ r : Request, createTranscription api cell p opts = Except.ok r
      ∧ ∃ rest, r.form = some
          ({ field := "file", value := FormValue.asIs tag,
             filename := none } :: rest) := by
  cases hb : buildTranscriptionForm p with
  | error e =>
    simp [buildTranscriptionForm, h] at hb
  | ok form =>
    refine ⟨(getApi api cell opts).post "audio/transcriptions"
      { json := none, body := some form, headers := [], signal := none },
      by simp [createTranscription, hb], ?_⟩
    simp [buildTranscriptionForm, h, appendFileEntry] at hb
    exact ⟨_, by rw [Adapter.post, ← hb]⟩

/-- Witness for C4 (amended) at a concrete unrecognized file value. -/
theorem c4_amended_witness :
    ∃ r : Request,
      createTranscription (createApiInstance "sk-test" none none [] none).1 none
          { file := some (FileRep.other "just-a-string"), model := "whisper-1",
            language := none, prompt := none, response_format := none,
            temperature := none, timestamp_granularities := [],
            includeFields := [], stream := none, chunking_strategy := none }
          none = Except.ok r
      ∧ ∃ rest, r.form = some
          ({ field := "file", value := FormValue.asIs "just-a-string",
             filename := none } :: rest) :=
  c4_amended_fallback _ _ _ _ _ rfl

/-- C5: for a failed response whose body text is read successfully — if the
text parses as JSON carrying an object-shaped `error` field, the normalized
error's parsed body is exactly that object and its raw message is absent;
if the text does not parse, or parses without an `error` field, the
message is the raw text; and in all cases the error carries the response's
status and parsed headers. -/
theorem c5_error_body_parsing (parse : String → Option Json)
    (resp : FailedResponse) (t c : String)
    (hbody : resp.body = some (BodyRead.ok t)) :
    (∀ j e, parse t = some j → j.getField "error" = some e → e.isObj = true →
        (beforeErrorHook parse (some resp) c).errorResponse = some e
      ∧ (beforeErrorHook parse (some resp) c).message = none)
  ∧ (parse t = none →
      (beforeErrorHook parse (some resp) c).message = some t)
  ∧ (∀ j, parse t = some j → j.getField "error" = none →
      (beforeErrorHook parse (some resp) c).message = some t)
  ∧ (beforeErrorHook parse (some resp) c).status = some resp.status
  ∧ (beforeErrorHook parse (some resp) c).headers
      = parseHeaders resp.headers := by
  refine ⟨?_, ?_, ?_, ?_, ?_⟩
  · intro j e hp hf hobj
    constructor <;>
      simp [beforeErrorHook, hbody, safeJson, hp, hf, truthy_of_isObj e hobj]
  · intro hp
    simp [beforeErrorHook, hbody, safeJson, hp]
  · intro j hp hf
    simp [beforeErrorHook, hbody, safeJson, hp, hf]
  · simp [beforeErrorHook, hbody, safeJson]
  · simp [beforeErrorHook, hbody, safeJson]

/-- Witness for C5 at a concrete parse function and failed response. -/
theorem c5_witness :
    ((beforeErrorHook
        (fun s => if s = "body1" then
            some (Json.obj [("error", Json.obj [("code", Json.str "bad")])])
          else none)
        (some { status := 404, headers := HeadersVal.iter [("x", "y")],
                body := some (BodyRead.ok "body1") }) "cause").errorResponse
      = some (Json.obj [("code", Json.str "bad")]))
  ∧ ((beforeErrorHook
        (fun s => if s = "body1" then
            some (Json.obj [("error", Json.obj [("code", Json.str "bad")])])
          else none)
        (some { status := 404, headers := HeadersVal.iter [("x", "y")],
                body := some (BodyRead.ok "body1") }) "cause").message = none)
  ∧ ((beforeErrorHook
        (fun s => if s = "body1" then
            some (Json.obj [("error", Json.obj [("code", Json.str "bad")])])
          else none)
        (some { status := 404, headers := HeadersVal.iter [("x", "y")],
                body := some (BodyRead.ok "body1") }) "cause").status
      = some 404) := by
  have h := c5_error_body_parsing
    (fun s => if s = "body1" then
        some (Json.obj [("error", Json.obj [("code", Json.str "bad")])])
      else none)
    { status := 404, headers := HeadersVal.iter [("x", "y")],
      body := some (BodyRead.ok "body1") } "body1" "cause" rfl
  exact ⟨(h.1 _ _ rfl rfl rfl).1, (h.1 _ _ rfl rfl rfl).2, h.2.2.2.1⟩

/-- C6: the normalization path never raises a secondary exception — it is
a total function whose degradations are: header-iteration failure yields
the empty headers map, JSON-parse failure yields an absent parsed body,
body-read failure degrades to the cause's message, and a missing response
yields the generic error. -/
theorem c6_normalizer_never_throws (parse : String → Option Json)
    (resp : FailedResponse) (c : String) :
    (resp.headers = HeadersVal.bad →
        (beforeErrorHook parse (some resp) c).headers = [])
  ∧ (∀ t, resp.body = some (BodyRead.ok t) → parse t = none →
        (beforeErrorHook parse (some resp) c).errorResponse = none)
  ∧ (∀ m, resp.body = some (BodyRead.failed m) →
        (parse m).bind (fun j => j.getField "error") = none →
          (beforeErrorHook parse (some resp) c).message = some m)
  ∧ beforeErrorHook parse none c = APIError.generate c := by
  refine ⟨?_, ?_, ?_, rfl⟩
  · intro hh
    cases hb : resp.body with
    | none => simp [beforeErrorHook, hb, hh, parseHeaders]
    | some br => simp [beforeErrorHook, hb, hh, parseHeaders]
  · intro t hb hp
    simp [beforeErrorHook, hb, safeJson, hp]
  · intro m hb hp
    simp [beforeErrorHook, hb, safeJson, hp]

/-- Witness for C6 at a concrete response with failing headers and a
failing body read, and at a missing response. -/
theorem c6_witness :
    ((beforeErrorHook (fun _ => none)
        (some { status := 500, headers := HeadersVal.bad,
                body := some (BodyRead.failed "boom") }) "c").headers = [])
  ∧ ((beforeErrorHook (fun _ => none)
        (some { status := 500, headers := HeadersVal.bad,
                body := some (BodyRead.failed "boom") }) "c").message
      = some "boom")
  ∧ beforeErrorHook (fun _ => none) none "c" = APIError.generate "c" := by
  have h := c6_normalizer_never_throws (fun _ => none)
    { status := 500, headers := HeadersVal.bad,
      body := some (BodyRead.failed "boom") } "c"
  exact ⟨h.1 rfl, h.2.2.1 "boom" rfl rfl, h.2.2.2⟩

/-- C7: for every way of splitting the frame sequence
`data: \x7b"id":1\x7d\n\ndata: \x7b"id":2\x7d\n\ndata: [DONE]\n\n` into
chunks, the decoder yields exactly the two mapped JSON values in frame
order and then ends the sequence (sentinel seen, no error); and for every
way of splitting the same content without the `[DONE]` frame, the stream's
close ends the sequence without error after the same two values. -/
theorem c7_stream_decoder (parse : List Char → Option α) (fn : α → β)
    (v1 v2 : α) (h1 : parse ssePayload1 = some v1)
    (h2 : parse ssePayload2 = some v2) :
    (∀ chunks : List (List Char), chunks.flatten = sseContent →
        (StreamCompletionChunker parse fn chunks).output = [fn v1, fn v2]
      ∧ (StreamCompletionChunker parse fn chunks).done = true
      ∧ (StreamCompletionChunker parse fn chunks).fatal = false)
  ∧ (∀ chunks : List (List Char), chunks.flatten = sseContentNoDone →
        (StreamCompletionChunker parse fn chunks).output = [fn v1, fn v2]
      ∧ (StreamCompletionChunker parse fn chunks).done = false
      ∧ (StreamCompletionChunker parse fn chunks).fatal = false) := by
  have hsplit : sseContent
      = (dataTag ++ ssePayload1 ++ ['\n', '\n'])
        ++ ((dataTag ++ ssePayload2 ++ ['\n', '\n'])
            ++ (dataTag ++ doneToken ++ ['\n', '\n'])) := by decide
  have hsplit2 : sseContentNoDone
      = (dataTag ++ ssePayload1 ++ ['\n', '\n'])
        ++ (dataTag ++ ssePayload2 ++ ['\n', '\n']) := by decide
  have hn1 : '\n' ∉ ssePayload1 := by decide
  have hn2 : '\n' ∉ ssePayload2 := by decide
  have hnd : '\n' ∉ doneToken := by decide
  have hd1 : ¬ ssePayload1 = doneToken := by decide
  have hd2 : ¬ ssePayload2 = doneToken := by decide
  have frame1 :
      decodeFeed parse fn
        { buf := [], pendingNewline := false, output := ([] : List β),
          done := false, fatal := false }
        (dataTag ++ ssePayload1 ++ ['\n', '\n'])
      = { buf := [], pendingNewline := false, output := [fn v1], done := false,
          fatal := false } := by
    rw [decodeFeed_whole_frame parse fn ssePayload1 hn1 [], if_neg hd1, h1]
    rfl
  have frame2 :
      decodeFeed parse fn
        { buf := [], pendingNewline := false, output := [fn v1], done := false,
          fatal := false }
        (dataTag ++ ssePayload2 ++ ['\n', '\n'])
      = { buf := [], pendingNewline := false, output := [fn v1, fn v2],
          done := false, fatal := false } := by
    rw [decodeFeed_whole_frame parse fn ssePayload2 hn2 [fn v1], if_neg hd2, h2]
    rfl
  have frame3 :
      decodeFeed parse fn
        { buf := [], pendingNewline := false, output := [fn v1, fn v2],
          done := false, fatal := false }
        (dataTag ++ doneToken ++ ['\n', '\n'])
      = { buf := [], pendingNewline := false, output := [fn v1, fn v2],
          done := true, fatal := false } := by
    rw [decodeFeed_whole_frame parse fn doneToken hnd [fn v1, fn v2],
      if_pos rfl]
  constructor
  · intro chunks hj
    rw [chunker_eq_flatten, hj, hsplit, decodeFeed_append, decodeFeed_append]
    rw [show (decodeInit : DecoderState β)
        = { buf := [], pendingNewline := false, output := [], done := false,
            fatal := false } from rfl]
    rw [frame1, frame2, frame3]
    exact ⟨rfl, rfl, rfl⟩
  · intro chunks hj
    rw [chunker_eq_flatten, hj, hsplit2, decodeFeed_append]
    rw [show (decodeInit : DecoderState β)
        = { buf := [], pendingNewline := false, output := [], done := false,
            fatal := false } from rfl]
    rw [frame1, frame2]
    exact ⟨rfl, rfl, rfl⟩

/-- Witness for C7: the identity parse/map over the unsplit content. -/
theorem c7_witness :
    ((StreamCompletionChunker (fun l => some l) (fun l : List Char => l)
        [sseContent]).output = [ssePayload1, ssePayload2])
  ∧ ((StreamCompletionChunker (fun l => some l) (fun l : List Char => l)
        [sseContent]).done = true) := by
  have h := (c7_stream_decoder (fun l : List Char => some l) (fun l => l)
      ssePayload1 ssePayload2 rfl rfl).1 [sseContent] (by simp)
  exact ⟨h.1, h.2.1⟩

/-- C8: a transcription call whose params carry no `file` throws the
validation error and the transport is never invoked. -/
theorem c8_missing_file_no_request (api : Adapter)
    (cell : Option (List Handler)) (p : TranscriptionParams)
    (opts : Option RequestOpts) (h : p.file = none) :
    createTranscription api cell p opts
        = Except.error "Transcription requires a file"
    ∧ transcriptionTransportCalls api cell p opts = [] := by
  have hb : buildTranscriptionForm p
      = Except.error "Transcription requires a file" := by
    simp [buildTranscriptionForm, h]
  constructor <;> simp [createTranscription, transcriptionTransportCalls, hb]

/-- Witness for C8 at concrete file-less params. -/
theorem c8_witness :
    (createTranscription (createApiInstance "sk-test" none none [] none).1 none
        { file := none, model := "whisper-1", language := none, prompt := none,
          response_format := none, temperature := none,
          timestamp_granularities := [], includeFields := [], stream := none,
          chunking_strategy := none } none
      = Except.error "Transcription requires a file")
  ∧ (transcriptionTransportCalls
        (createApiInstance "sk-test" none none [] none).1 none
        { file := none, model := "whisper-1", language := none, prompt := none,
          response_format := none, temperature := none,
          timestamp_granularities := [], includeFields := [], stream := none,
          chunking_strategy := none } none = []) :=
  c8_missing_file_no_request _ _ _ _ rfl

/-- C9: for every attempt count `n ≥ 1` and every `Math.random()` draw
`r ∈ [0, 1)`, the default backoff delay equals
`(0.3 * (n - 1)^2 + j) * 1000` milliseconds for a jitter `j` in the window
`[-0.3, 0.3]`, and lies within `300` of `300 * (n - 1)^2`. -/
theorem c9_retry_backoff (n : ℕ) (r : ℚ) (_hn : 1 ≤ n) (h0 : 0 ≤ r)
    (h1 : r < 1) :
    ∃ j : ℚ, retryDelay n r = ((3/10) * ((n : ℚ) - 1) ^ 2 + j) * 1000
      ∧ -(3/10) ≤ j ∧ j ≤ 3/10
      ∧ |retryDelay n r - 300 * ((n : ℚ) - 1) ^ 2| ≤ 300 := by
  have he : retryDelay n r
      = ((3/10) * ((n : ℚ) - 1) ^ 2 + (r * (3/5) - 3/10)) * 1000 := by
    simp [retryDelay, numberBetween]
    ring
  refine ⟨r * (3/5) - 3/10, he, by linarith, by linarith, ?_⟩
  have he2 : retryDelay n r - 300 * ((n : ℚ) - 1) ^ 2
      = (r * (3/5) - 3/10) * 1000 := by
    rw [he]; ring
  rw [he2, abs_le]
  constructor <;> nlinarith

/-- Witness for C9 at the second attempt with `r = 1/2`. -/
theorem c9_witness :
    ∃ j : ℚ, retryDelay 2 (1/2)
        = ((3/10) * (((2 : ℕ) : ℚ) - 1) ^ 2 + j) * 1000
      ∧ -(3/10) ≤ j ∧ j ≤ 3/10
      ∧ |retryDelay 2 (1/2) - 300 * (((2 : ℕ) : ℚ) - 1) ^ 2| ≤ 300 :=
  c9_retry_backoff 2 (1/2) (by norm_num) (by norm_num) (by norm_num)

/-- C10: for every params object, the JSON body sent by
`streamChatCompletion` and by `streamCompletion` has its `stream` field
equal to `true`, even when the caller's params omit `stream` or set it to
`false` (the spread `\x7b...params, stream: true\x7d` makes the later
binding win). -/
theorem c10_stream_flag (api : Adapter) (cell : Option (List Handler))
    (params : List (String × Json)) (opts : Option RequestOpts) :
    ((streamChatCompletionRequest api cell params opts).json.bind
        (fun j => j.getField "stream") = some (Json.bool true))
  ∧ ((streamCompletionRequest api cell params opts).json.bind
        (fun j => j.getField "stream") = some (Json.bool true)) := by
  constructor <;>
    simp [streamChatCompletionRequest, streamCompletionRequest, Adapter.post,
      streamChatCompletionBody, streamCompletionBody, Json.getField,
      jsGetFields, List.foldl_append]
